import Mathlib

/-!
Verification of the stocka dental-inventory core (`core/calculator.py`,
`core/dental.py`, `database/db.py`) against its specification.

The relational store is embedded as explicit lists of rows (`InventoryDB`);
SQL queries become list filters/maps over those rows, mirroring each query's
WHERE/JOIN/ORDER BY clauses.  Money columns (`DECIMAL`) are embedded as exact
rationals `ℚ`, quantities and stock as `Int`.  A movement's `precio_total` is
the schema's generated column `cantidad * precio_unitario`.  Calendar data is
embedded as the fields the queries actually inspect: each movement carries the
month/year extracted from its `fecha_hora` timestamp, and dates (`lotes.
fecha_vencimiento`, "today") are day numbers `Int` ordered like ISO dates.
-/

/-- Money: the `DECIMAL` SQL columns, embedded exactly. -/
abbrev Money := ℚ

/-- A row of the `productos` table (schema in `database/db.py`). -/
structure Producto where
  id : Nat
  codigo : String
  nombre : String
  stock : Int
  stock_minimo : Int
  precio_unitario : Money
  proveedor : String
  dias_entrega : Int
  activo : Bool
  empresa_id : Nat
deriving Repr, DecidableEq

/-- A row of the `movimientos` table.  `mes`/`anio` are the month and year of
the row's `fecha_hora` timestamp (what `strftime` extracts in the queries). -/
structure Movimiento where
  producto_id : Nat
  tipo : String
  cantidad : Int
  precio_unitario : Money
  documento : Option String
  mes : Nat
  anio : Int
  empresa_id : Nat
deriving Repr, DecidableEq

/-- The generated column `precio_total DECIMAL GENERATED ALWAYS AS
(cantidad * precio_unitario) STORED`. -/
def Movimiento.precio_total (m : Movimiento) : Money :=
  m.cantidad * m.precio_unitario

/-- A row of the `existencias` monthly-snapshot table (only the columns the
calculator reads back: the key and the closing figures). -/
structure Existencia where
  producto_id : Nat
  mes : Nat
  anio : Int
  stock_final : Int
  valor_final : Money
  empresa_id : Nat
deriving Repr, DecidableEq

/-- A row of the `lotes` table.  `fecha_vencimiento` is a day number. -/
structure Lote where
  producto_id : Nat
  numero_lote : String
  fecha_vencimiento : Int
  cantidad : Int
  empresa_id : Nat
deriving Repr, DecidableEq

/-- The database state: the four tables of `database/db.py`. -/
structure InventoryDB where
  productos : List Producto
  movimientos : List Movimiento
  existencias : List Existencia
  lotes : List Lote
deriving Repr, DecidableEq

/-- The inflow test `tipo in ('entrada', 'ajuste_positivo')` used by
`calcular_existencias_mes`, `calcular_stock_actual` and
`registrar_movimiento_dental`. -/
def esEntrada (tipo : String) : Bool :=
  decide (tipo = "entrada" ∨ tipo = "ajuste_positivo")

/-- The outflow test `tipo in ('salida', 'ajuste_negativo')`. -/
def esSalida (tipo : String) : Bool :=
  decide (tipo = "salida" ∨ tipo = "ajuste_negativo")

/-- `InventoryCalculator._get_previous_month`:
`if mes == 1: return 12, anio - 1` / `return mes - 1, anio`. -/
def _get_previous_month (mes : Nat) (anio : Int) : Nat × Int :=
  if mes = 1 then (12, anio - 1) else (mes - 1, anio)

/-- `InventoryCalculator._obtener_datos_mes_anterior`: the
`SELECT stock_final, valor_final FROM existencias WHERE producto_id = ? AND
mes = ? AND anio = ? AND empresa_id = ?` query; `result[0] if result else
None`. -/
def _obtener_datos_mes_anterior (db : InventoryDB) (producto_id : Nat)
    (mes : Nat) (anio : Int) (empresa_id : Nat) : Option Existencia :=
  (db.existencias.filter (fun e =>
    decide (e.producto_id = producto_id ∧ e.mes = mes ∧ e.anio = anio ∧
      e.empresa_id = empresa_id))).head?

/-- `InventoryCalculator._obtener_movimientos_mes`: the query over
`movimientos` filtering on product, `strftime` month/year and company. -/
def _obtener_movimientos_mes (db : InventoryDB) (producto_id : Nat)
    (mes : Nat) (anio : Int) (empresa_id : Nat) : List Movimiento :=
  db.movimientos.filter (fun m =>
    decide (m.producto_id = producto_id ∧ m.mes = mes ∧ m.anio = anio ∧
      m.empresa_id = empresa_id))

/-- The record returned by `calcular_existencias_mes`. -/
structure ExistenciasMes where
  producto_id : Nat
  mes : Nat
  anio : Int
  empresa_id : Nat
  stock_inicial : Int
  entradas : Int
  salidas : Int
  stock_final : Int
  valor_inicial : Money
  valor_entradas : Money
  valor_salidas : Money
  valor_final : Money
deriving Repr, DecidableEq

/-- `InventoryCalculator.calcular_existencias_mes` (the Python default
`empresa_id = 1` is passed explicitly by callers here). -/
def calcular_existencias_mes (db : InventoryDB) (producto_id : Nat)
    (mes : Nat) (anio : Int) (empresa_id : Nat) : ExistenciasMes :=
  let prev := _get_previous_month mes anio
  let prev_data := _obtener_datos_mes_anterior db producto_id prev.1 prev.2 empresa_id
  let movimientos := _obtener_movimientos_mes db producto_id mes anio empresa_id
  let stock_inicial : Int :=
    match prev_data with
    | some d => d.stock_final
    | none => 0
  let valor_inicial : Money :=
    match prev_data with
    | some d => d.valor_final
    | none => 0
  let entradas : Int :=
    ((movimientos.filter (fun m => esEntrada m.tipo)).map (fun m => m.cantidad)).sum
  let salidas : Int :=
    ((movimientos.filter (fun m => esSalida m.tipo)).map (fun m => m.cantidad)).sum
  let valor_entradas : Money :=
    ((movimientos.filter (fun m => esEntrada m.tipo)).map (fun m => m.precio_total)).sum
  let valor_salidas : Money :=
    ((movimientos.filter (fun m => esSalida m.tipo)).map (fun m => m.precio_total)).sum
  { producto_id := producto_id, mes := mes, anio := anio, empresa_id := empresa_id,
    stock_inicial := stock_inicial, entradas := entradas, salidas := salidas,
    stock_final := stock_inicial + entradas - salidas,
    valor_inicial := valor_inicial, valor_entradas := valor_entradas,
    valor_salidas := valor_salidas,
    valor_final := valor_inicial + valor_entradas - valor_salidas }

/-- The empty database (no rows in any table). -/
def dbEmpty : InventoryDB :=
  { productos := [], movimientos := [], existencias := [], lotes := [] }

/-- C1: for every database state, product, month, year and company, the
record returned by `calcular_existencias_mes` satisfies
`stock_final = stock_inicial + entradas - salidas` and
`valor_final = valor_inicial + valor_entradas - valor_salidas` exactly, where
`entradas`/`valor_entradas` sum the quantity resp. total price of the month's
movements of kind `entrada` or `ajuste_positivo` and `salidas`/`valor_salidas`
those of kind `salida` or `ajuste_negativo`; the arithmetic is over `Int`/`ℚ`
with no floor at zero, so negative closing figures are returned as-is. -/
theorem calcular_existencias_mes_roll_forward (db : InventoryDB)
    (producto_id mes : Nat) (anio : Int) (empresa_id : Nat) :
    (calcular_existencias_mes db producto_id mes anio empresa_id).stock_final
      = (calcular_existencias_mes db producto_id mes anio empresa_id).stock_inicial
        + (calcular_existencias_mes db producto_id mes anio empresa_id).entradas
        - (calcular_existencias_mes db producto_id mes anio empresa_id).salidas
    ∧ (calcular_existencias_mes db producto_id mes anio empresa_id).valor_final
      = (calcular_existencias_mes db producto_id mes anio empresa_id).valor_inicial
        + (calcular_existencias_mes db producto_id mes anio empresa_id).valor_entradas
        - (calcular_existencias_mes db producto_id mes anio empresa_id).valor_salidas
    ∧ (calcular_existencias_mes db producto_id mes anio empresa_id).entradas
      = (((_obtener_movimientos_mes db producto_id mes anio empresa_id).filter
          (fun m => esEntrada m.tipo)).map (fun m => m.cantidad)).sum
    ∧ (calcular_existencias_mes db producto_id mes anio empresa_id).salidas
      = (((_obtener_movimientos_mes db producto_id mes anio empresa_id).filter
          (fun m => esSalida m.tipo)).map (fun m => m.cantidad)).sum
    ∧ (calcular_existencias_mes db producto_id mes anio empresa_id).valor_entradas
      = (((_obtener_movimientos_mes db producto_id mes anio empresa_id).filter
          (fun m => esEntrada m.tipo)).map (fun m => m.precio_total)).sum
    ∧ (calcular_existencias_mes db producto_id mes anio empresa_id).valor_salidas
      = (((_obtener_movimientos_mes db producto_id mes anio empresa_id).filter
          (fun m => esSalida m.tipo)).map (fun m => m.precio_total)).sum := by
  refine ⟨rfl, rfl, rfl, rfl, rfl, rfl⟩

/-- C3: when the previous period has no snapshot row (the snapshot query
returns nothing), `calcular_existencias_mes` returns opening stock 0 and
opening value 0 instead of failing. -/
theorem calcular_existencias_mes_sin_snapshot (db : InventoryDB)
    (producto_id mes : Nat) (anio : Int) (empresa_id : Nat)
    (h : _obtener_datos_mes_anterior db producto_id
      (_get_previous_month mes anio).1 (_get_previous_month mes anio).2
      empresa_id = none) :
    (calcular_existencias_mes db producto_id mes anio empresa_id).stock_inicial = 0
    ∧ (calcular_existencias_mes db producto_id mes anio empresa_id).valor_inicial = 0 := by
  simp only [calcular_existencias_mes, h]
  exact ⟨trivial, trivial⟩

/-- Witness for C3 at a concrete input: the empty database has no snapshot
for (2, 2024), and the valuation of product 1 for (3, 2024) opens at 0/0. -/
theorem calcular_existencias_mes_sin_snapshot_witness :
    _obtener_datos_mes_anterior dbEmpty 1 (_get_previous_month 3 2024).1
      (_get_previous_month 3 2024).2 1 = none
    ∧ ((calcular_existencias_mes dbEmpty 1 3 2024 1).stock_inicial = 0
      ∧ (calcular_existencias_mes dbEmpty 1 3 2024 1).valor_inicial = 0) :=
  ⟨rfl, calcular_existencias_mes_sin_snapshot dbEmpty 1 3 2024 1 rfl⟩

/-- C4: `_get_previous_month` returns (12, anio − 1) for month 1 and
(mes − 1, anio) for any other month, with no lower bound on the year; hence
`calcular_existencias_mes` for (1, y) derives its opening stock and value
from the snapshot row looked up at (12, y − 1). -/
theorem _get_previous_month_spec (mes : Nat) (anio : Int) (db : InventoryDB)
    (producto_id : Nat) (y : Int) (empresa_id : Nat) (h : mes ≠ 1) :
    _get_previous_month 1 anio = (12, anio - 1)
    ∧ _get_previous_month mes anio = (mes - 1, anio)
    ∧ (calcular_existencias_mes db producto_id 1 y empresa_id).stock_inicial
      = (match _obtener_datos_mes_anterior db producto_id 12 (y - 1) empresa_id with
         | some d => d.stock_final
         | none => 0)
    ∧ (calcular_existencias_mes db producto_id 1 y empresa_id).valor_inicial
      = (match _obtener_datos_mes_anterior db producto_id 12 (y - 1) empresa_id with
         | some d => d.valor_final
         | none => 0) := by
  refine ⟨rfl, ?_, rfl, rfl⟩
  unfold _get_previous_month
  rw [if_neg h]

/-- Witness for C4 at a concrete input: month 2 is not month 1, and its
previous period is (1, 2024). -/
theorem _get_previous_month_spec_witness :
    (2 : Nat) ≠ 1 ∧ _get_previous_month 2 2024 = (1, 2024) :=
  ⟨by decide, (_get_previous_month_spec 2 2024 dbEmpty 1 2024 1 (by decide)).2.1⟩

/-- One entry of the report's `productos` breakdown list. -/
structure ReporteProducto where
  producto_id : Nat
  nombre : String
  stock_inicial : Int
  entradas : Int
  salidas : Int
  stock_final : Int
  valor_final : Money
deriving Repr, DecidableEq

/-- The record returned by `generar_reporte_sunat`. -/
structure Reporte where
  mes : Nat
  anio : Int
  productos : List ReporteProducto
  total_valor_final : Money
deriving Repr, DecidableEq

/-- The body of the `for producto in productos` loop of
`generar_reporte_sunat`: append one breakdown entry built from
`calcular_existencias_mes` and add its `valor_final` to the running total. -/
def generar_reporte_sunat_step (db : InventoryDB) (mes : Nat) (anio : Int)
    (reporte : Reporte) (producto : Producto) : Reporte :=
  let existencias := calcular_existencias_mes db producto.id mes anio 1
  { reporte with
    productos := reporte.productos ++
      [{ producto_id := producto.id, nombre := producto.nombre,
         stock_inicial := existencias.stock_inicial,
         entradas := existencias.entradas, salidas := existencias.salidas,
         stock_final := existencias.stock_final,
         valor_final := existencias.valor_final }],
    total_valor_final := reporte.total_valor_final + existencias.valor_final }

/-- `DentalInventoryManager.generar_reporte_sunat`: list the active products
(`SELECT ... FROM productos WHERE activo = TRUE`), start from an empty report
with total 0.0, and run the accumulation loop over them. -/
def generar_reporte_sunat (db : InventoryDB) (mes : Nat) (anio : Int) : Reporte :=
  let productos := db.productos.filter (fun p => p.activo)
  productos.foldl (generar_reporte_sunat_step db mes anio)
    { mes := mes, anio := anio, productos := [], total_valor_final := 0 }

/-- The breakdown entry the loop builds for one product: the projection of
that product's `calcular_existencias_mes` result. -/
def reporteEntry (db : InventoryDB) (mes : Nat) (anio : Int) (p : Producto) :
    ReporteProducto :=
  let existencias := calcular_existencias_mes db p.id mes anio 1
  { producto_id := p.id, nombre := p.nombre,
    stock_inicial := existencias.stock_inicial,
    entradas := existencias.entradas, salidas := existencias.salidas,
    stock_final := existencias.stock_final,
    valor_final := existencias.valor_final }

lemma generar_reporte_sunat_foldl (db : InventoryDB) (mes : Nat) (anio : Int) :
    ∀ (l : List Producto) (acc : Reporte),
      (l.foldl (generar_reporte_sunat_step db mes anio) acc).productos
        = acc.productos ++ l.map (reporteEntry db mes anio)
      ∧ (l.foldl (generar_reporte_sunat_step db mes anio) acc).total_valor_final
        = acc.total_valor_final
          + (l.map (fun p => (reporteEntry db mes anio p).valor_final)).sum
  | [], acc => by simp
  | p :: l, acc => by
    have ih := generar_reporte_sunat_foldl db mes anio l
      (generar_reporte_sunat_step db mes anio acc p)
    refine ⟨?_, ?_⟩
    · rw [List.foldl_cons, ih.1]
      simp [generar_reporte_sunat_step, reporteEntry]
    · rw [List.foldl_cons, ih.2]
      simp [generar_reporte_sunat_step, reporteEntry, add_assoc]

/-- C5: `generar_reporte_sunat` produces one breakdown entry per active
product, in the order of the product listing, each entry being exactly the
projection of that product's `calcular_existencias_mes` result (one
calculator invocation per active product), and its grand total
`total_valor_final` equals the exact sum of the `valor_final` fields of the
breakdown entries. -/
theorem generar_reporte_sunat_spec (db : InventoryDB) (mes : Nat) (anio : Int) :
    (generar_reporte_sunat db mes anio).productos
      = (db.productos.filter (fun p => p.activo)).map (reporteEntry db mes anio)
    ∧ (generar_reporte_sunat db mes anio).total_valor_final
      = ((generar_reporte_sunat db mes anio).productos.map
          (fun e => e.valor_final)).sum := by
  have h := generar_reporte_sunat_foldl db mes anio
    (db.productos.filter (fun p => p.activo))
    { mes := mes, anio := anio, productos := [], total_valor_final := 0 }
  refine ⟨?_, ?_⟩
  · simpa [generar_reporte_sunat] using h.1
  · have h1 : (generar_reporte_sunat db mes anio).productos
      = (db.productos.filter (fun p => p.activo)).map (reporteEntry db mes anio) := by
      simpa [generar_reporte_sunat] using h.1
    rw [h1, List.map_map]
    simpa [generar_reporte_sunat, Function.comp] using h.2

/-- One row returned by `sugerir_pedidos`. -/
structure Sugerencia where
  id : Nat
  nombre : String
  stock : Int
  stock_minimo : Int
  proveedor : String
  dias_entrega : Int
  cantidad_sugerida : Int
deriving Repr, DecidableEq

/-- The SELECT list of `sugerir_pedidos`: the product's columns together with
the computed column `(p.stock_minimo - p.stock) as cantidad_sugerida`. -/
def mkSugerencia (p : Producto) : Sugerencia :=
  { id := p.id, nombre := p.nombre, stock := p.stock,
    stock_minimo := p.stock_minimo, proveedor := p.proveedor,
    dias_entrega := p.dias_entrega,
    cantidad_sugerida := p.stock_minimo - p.stock }

/-- `DentalInventoryManager.sugerir_pedidos`: the query over `productos` with
`WHERE p.stock < p.stock_minimo AND p.activo = TRUE`. -/
def sugerir_pedidos (db : InventoryDB) : List Sugerencia :=
  (db.productos.filter (fun p =>
    decide (p.stock < p.stock_minimo) && p.activo)).map mkSugerencia

/-- C6: every row returned by `sugerir_pedidos` carries
`cantidad_sugerida = stock_minimo - stock`, strictly positive, and comes from
an active product whose stock is strictly below its minimum (so no product
with stock ≥ minimum is ever returned); conversely every active product with
stock strictly below its minimum produces a row. -/
theorem sugerir_pedidos_spec (db : InventoryDB) (s : Sugerencia) (p : Producto)
    (hs : s ∈ sugerir_pedidos db) (hp : p ∈ db.productos)
    (hact : p.activo = true) (hlt : p.stock < p.stock_minimo) :
    s.cantidad_sugerida = s.stock_minimo - s.stock
    ∧ 0 < s.cantidad_sugerida
    ∧ s.stock < s.stock_minimo
    ∧ (∃ q, q ∈ db.productos ∧ q.activo = true ∧ q.stock < q.stock_minimo
        ∧ s = mkSugerencia q)
    ∧ mkSugerencia p ∈ sugerir_pedidos db := by
  obtain ⟨q, hqmem, hqs⟩ := List.mem_map.mp hs
  obtain ⟨hq, hcond⟩ := List.mem_filter.mp hqmem
  rw [Bool.and_eq_true, decide_eq_true_iff] at hcond
  subst hqs
  refine ⟨rfl, ?_, ?_, ⟨q, hq, hcond.2, hcond.1, rfl⟩, ?_⟩
  · simpa [mkSugerencia] using sub_pos.mpr hcond.1
  · simpa [mkSugerencia] using hcond.1
  · exact List.mem_map.mpr ⟨p, List.mem_filter.mpr
      ⟨hp, by rw [Bool.and_eq_true, decide_eq_true_iff]; exact ⟨hlt, hact⟩⟩, rfl⟩

/-- A low-stock active product used as a concrete witness input. -/
def pBajo : Producto :=
  { id := 1, codigo := "RES-001", nombre := "Resina Flow", stock := 2,
    stock_minimo := 10, precio_unitario := 85, proveedor := "DentalPeru",
    dias_entrega := 2, activo := true, empresa_id := 1 }

/-- A database holding only the low-stock product `pBajo`. -/
def dbBajo : InventoryDB :=
  { productos := [pBajo], movimientos := [], existencias := [], lotes := [] }

/-- Witness for C6 at a concrete input: `pBajo` (stock 2, minimum 10) is
returned with a strictly positive suggested quantity. -/
theorem sugerir_pedidos_spec_witness :
    mkSugerencia pBajo ∈ sugerir_pedidos dbBajo
    ∧ pBajo ∈ dbBajo.productos
    ∧ pBajo.activo = true
    ∧ pBajo.stock < pBajo.stock_minimo
    ∧ 0 < (mkSugerencia pBajo).cantidad_sugerida :=
  ⟨by decide, by decide, by decide, by decide,
    (sugerir_pedidos_spec dbBajo (mkSugerencia pBajo) pBajo (by decide)
      (by decide) (by decide) (by decide)).2.1⟩

/-- One row returned by `verificar_vencimientos`, including the computed
column `julianday(l.fecha_vencimiento) - julianday('now') as dias_restantes`
(whole days in this embedding, since dates are day numbers). -/
structure Vencimiento where
  producto : String
  numero_lote : String
  fecha_vencimiento : Int
  cantidad : Int
  dias_restantes : Int
deriving Repr, DecidableEq

/-- The SELECT list of `verificar_vencimientos` for one joined
(producto, lote) pair. -/
def mkVencimiento (hoy : Int) (p : Producto) (l : Lote) : Vencimiento :=
  { producto := p.nombre, numero_lote := l.numero_lote,
    fecha_vencimiento := l.fecha_vencimiento, cantidad := l.cantidad,
    dias_restantes := l.fecha_vencimiento - hoy }

/-- The `ORDER BY l.fecha_vencimiento` comparison. -/
def vencLE (a b : Vencimiento) : Prop :=
  a.fecha_vencimiento ≤ b.fecha_vencimiento

instance : DecidableRel vencLE := fun a b =>
  inferInstanceAs (Decidable (a.fecha_vencimiento ≤ b.fecha_vencimiento))

instance : IsTotal Vencimiento vencLE :=
  ⟨fun a b => Int.le_total a.fecha_vencimiento b.fecha_vencimiento⟩

instance : IsTrans Vencimiento vencLE :=
  ⟨fun _ _ _ h1 h2 => le_trans h1 h2⟩

/-- `DentalInventoryManager.verificar_vencimientos`: `hoy` is today's date
(`datetime.now().date()`) as a day number, `fecha_limite = hoy + dias_alerta`;
the query joins `lotes` with `productos`, keeps rows with
`l.fecha_vencimiento BETWEEN hoy AND fecha_limite` (inclusive on both ends)
and `p.activo = TRUE`, and orders by `l.fecha_vencimiento`. -/
def verificar_vencimientos (db : InventoryDB) (hoy : Int) (dias_alerta : Int) :
    List Vencimiento :=
  let fecha_limite := hoy + dias_alerta
  List.insertionSort vencLE (db.lotes.flatMap (fun l =>
    if hoy ≤ l.fecha_vencimiento ∧ l.fecha_vencimiento ≤ fecha_limite then
      (db.productos.filter (fun p =>
        decide (l.producto_id = p.id ∧ p.activo = true))).map
        (fun p => mkVencimiento hoy p l)
    else []))

/-- C7: for every non-negative alert window, `verificar_vencimientos` returns
exactly the joined (lote, active producto) rows whose expiry date lies within
`[hoy, hoy + dias_alerta]` inclusive — lots already expired or expiring after
the limit are excluded — and the returned list is sorted ascending by expiry
date. -/
theorem verificar_vencimientos_spec (db : InventoryDB) (hoy dias_alerta : Int)
    (r : Vencimiento) (hd : 0 ≤ dias_alerta) :
    (r ∈ verificar_vencimientos db hoy dias_alerta ↔
      ∃ l p, l ∈ db.lotes ∧ p ∈ db.productos ∧ l.producto_id = p.id
        ∧ p.activo = true ∧ hoy ≤ l.fecha_vencimiento
        ∧ l.fecha_vencimiento ≤ hoy + dias_alerta
        ∧ r = mkVencimiento hoy p l)
    ∧ List.Sorted vencLE (verificar_vencimientos db hoy dias_alerta) := by
  constructor
  · simp only [verificar_vencimientos, List.mem_insertionSort, List.mem_flatMap]
    constructor
    · rintro ⟨l, hl, hr⟩
      by_cases hcond : hoy ≤ l.fecha_vencimiento ∧ l.fecha_vencimiento ≤ hoy + dias_alerta
      · rw [if_pos hcond] at hr
        obtain ⟨p, hpmem, hpr⟩ := List.mem_map.mp hr
        obtain ⟨hp, hpc⟩ := List.mem_filter.mp hpmem
        rw [decide_eq_true_iff] at hpc
        exact ⟨l, p, hl, hp, hpc.1, hpc.2, hcond.1, hcond.2, hpr.symm⟩
      · rw [if_neg hcond] at hr
        exact absurd hr (List.not_mem_nil r)
    · rintro ⟨l, p, hl, hp, hid, hact, h1, h2, rfl⟩
      refine ⟨l, hl, ?_⟩
      rw [if_pos ⟨h1, h2⟩]
      exact List.mem_map.mpr ⟨p, List.mem_filter.mpr
        ⟨hp, decide_eq_true_iff.mpr ⟨hid, hact⟩⟩, rfl⟩
  · exact List.sorted_insertionSort vencLE _

/-- An active product used as a concrete input for C7. -/
def pAnestesia : Producto :=
  { id := 1, codigo := "ANE-002", nombre := "Anestesia", stock := 8,
    stock_minimo := 5, precio_unitario := 12, proveedor := "DentalPeru",
    dias_entrega := 2, activo := true, empresa_id := 1 }

/-- A lot of `pAnestesia` expiring on day 25. -/
def loteTarde : Lote :=
  { producto_id := 1, numero_lote := "L-9", fecha_vencimiento := 25,
    cantidad := 4, empresa_id := 1 }

/-- A lot of `pAnestesia` expiring on day 10. -/
def loteTemprano : Lote :=
  { producto_id := 1, numero_lote := "L-8", fecha_vencimiento := 10,
    cantidad := 6, empresa_id := 1 }

/-- A database with one active product and two lots, listed out of expiry
order. -/
def dbLotes : InventoryDB :=
  { productos := [pAnestesia], movimientos := [], existencias := [],
    lotes := [loteTarde, loteTemprano] }

/-- Witness for C7 at a concrete input: with today = day 0 and a 30-day
window, the scan of `dbLotes` is sorted ascending by expiry date. -/
theorem verificar_vencimientos_spec_witness :
    (0 : Int) ≤ 30 ∧ List.Sorted vencLE (verificar_vencimientos dbLotes 0 30) :=
  ⟨by decide,
    (verificar_vencimientos_spec dbLotes 0 30
      (mkVencimiento 0 pAnestesia loteTemprano) (by decide)).2⟩

/-- One (optional) row returned by `calcular_stock_actual`. -/
structure StockActual where
  nombre : String
  stock : Int
  stock_minimo : Int
  stock_calculado : Int
deriving Repr, DecidableEq

/-- `InventoryCalculator.calcular_stock_actual`: `LEFT JOIN movimientos ON
p.id = m.producto_id WHERE p.id = ? GROUP BY p.id`, with the aggregate
`COALESCE(SUM(CASE WHEN m.tipo IN inflow THEN m.cantidad ELSE 0 END), 0) -
COALESCE(SUM(CASE WHEN m.tipo IN outflow THEN m.cantidad ELSE 0 END), 0)`
(`p.id` is the table's primary key, so there is at most one group; a product
with no movements yields empty sums, i.e. 0); `result[0] if result else
None`. -/
def calcular_stock_actual (db : InventoryDB) (producto_id : Nat) :
    Option StockActual :=
  ((db.productos.filter (fun p => decide (p.id = producto_id))).head?).map
    (fun p =>
      let movs := db.movimientos.filter (fun m => decide (m.producto_id = p.id))
      { nombre := p.nombre, stock := p.stock, stock_minimo := p.stock_minimo,
        stock_calculado :=
          (movs.map (fun m => if esEntrada m.tipo then m.cantidad else 0)).sum
          - (movs.map (fun m => if esSalida m.tipo then m.cantidad else 0)).sum })

lemma sum_map_ite_cantidad (l : List Movimiento) (c : Movimiento → Bool) :
    (l.map (fun m => if c m then m.cantidad else 0)).sum
      = ((l.filter c).map (fun m => m.cantidad)).sum := by
  induction l with
  | nil => rfl
  | cons m l ih => by_cases h : c m <;> simp [h, ih]

/-- C9: `calcular_stock_actual` returns `none` exactly when no product has
the requested id, and otherwise its `stock_calculado` figure is recomputed
from the full movement history — the sum of the quantities of `entrada` and
`ajuste_positivo` movements minus the sum of the quantities of `salida` and
`ajuste_negativo` movements across all time — an expression that never reads
the product's stored `stock` counter. -/
theorem calcular_stock_actual_spec (db : InventoryDB) (producto_id : Nat) :
    (calcular_stock_actual db producto_id = none ↔
      ¬ ∃ p ∈ db.productos, p.id = producto_id)
    ∧ ∀ r, calcular_stock_actual db producto_id = some r →
        r.stock_calculado =
          ((db.movimientos.filter (fun m =>
              esEntrada m.tipo && decide (m.producto_id = producto_id))).map
            (fun m => m.cantidad)).sum
          - ((db.movimientos.filter (fun m =>
              esSalida m.tipo && decide (m.producto_id = producto_id))).map
            (fun m => m.cantidad)).sum := by
  constructor
  · rw [calcular_stock_actual, Option.map_eq_none', List.head?_eq_none_iff,
      List.filter_eq_nil_iff]
    constructor
    · rintro h ⟨p, hp, hid⟩
      exact h p hp (decide_eq_true_iff.mpr hid)
    · intro h p hp hdec
      exact h ⟨p, hp, decide_eq_true_iff.mp hdec⟩
  · intro r hr
    rw [calcular_stock_actual, Option.map_eq_some'] at hr
    obtain ⟨p, hp, hpr⟩ := hr
    have hpid : p.id = producto_id := by
      have hmem := List.mem_of_mem_head? (by rw [hp]; exact rfl)
      exact decide_eq_true_iff.mp (List.mem_filter.mp hmem).2
    subst hpr
    simp only [sum_map_ite_cantidad, List.filter_filter, hpid]

/-- The schema CHECK constraint on `movimientos.tipo`:
`CHECK(tipo IN ('entrada', 'salida', 'ajuste_positivo', 'ajuste_negativo'))`. -/
def tipoValido (tipo : String) : Bool :=
  decide (tipo = "entrada" ∨ tipo = "salida" ∨ tipo = "ajuste_positivo" ∨
    tipo = "ajuste_negativo")

/-- Outcome of one `InventoryDB.execute_update` call.  `execute_update`
commits after every statement, so on success (`ok`) the new state is durable
immediately; on a raised error (`err`) the failed statement leaves the
committed state unchanged.  `rowcount` is `cursor.rowcount`. -/
inductive UpdateResult where
  | ok (db : InventoryDB) (rowcount : Nat)
  | err (db : InventoryDB)
deriving Repr

/-- The `INSERT INTO movimientos (producto_id, tipo, cantidad,
precio_unitario, documento) VALUES (?, ?, ?, ?, ?)` statement run through
`execute_update`.  `storage_fault` models a StorageFailure raised by the
statement itself (connectivity, locked database).  The statement also raises
when the schema CHECK on `tipo` or the foreign key on `producto_id`
(`PRAGMA foreign_keys = ON`) is violated; nothing constrains `cantidad`.
On success the committed ledger gains the row (with `empresa_id` defaulting
to 1 and the timestamp's month/year as given) and `cursor.rowcount` is 1. -/
def insert_movimiento (db : InventoryDB) (producto_id : Nat) (tipo : String)
    (cantidad : Int) (precio_unitario : Money) (documento : Option String)
    (mes : Nat) (anio : Int) (storage_fault : Bool) : UpdateResult :=
  if storage_fault then UpdateResult.err db
  else if tipoValido tipo = false then UpdateResult.err db
  else if db.productos.any (fun p => decide (p.id = producto_id)) = false then
    UpdateResult.err db
  else UpdateResult.ok
    { db with movimientos := db.movimientos ++
        [{ producto_id := producto_id, tipo := tipo, cantidad := cantidad,
           precio_unitario := precio_unitario, documento := documento,
           mes := mes, anio := anio, empresa_id := 1 }] } 1

/-- The `UPDATE productos SET stock = stock + ? WHERE id = ?` (resp. `- ?`)
statement run through `execute_update`; `delta` is `+cantidad` or
`-cantidad`.  It cannot violate a constraint; `storage_fault` models a
StorageFailure raised by the statement.  Matches zero or more rows and
commits the new stock values. -/
def update_stock (db : InventoryDB) (producto_id : Nat) (delta : Int)
    (storage_fault : Bool) : UpdateResult :=
  if storage_fault then UpdateResult.err db
  else UpdateResult.ok
    { db with productos := db.productos.map (fun p =>
        if p.id = producto_id then { p with stock := p.stock + delta } else p) }
    (db.productos.filter (fun p => decide (p.id = producto_id))).length

/-- `DentalInventoryManager.registrar_movimiento_dental`: inside one
`try/except`, first the movement INSERT, then the stock UPDATE whose sign is
chosen by `tipo in ('entrada', 'ajuste_positivo')` (any other kind takes the
subtracting branch); each statement commits separately.  Any exception is
caught and collapsed into the return value `False`, keeping whatever state
the already-committed statements produced; on success the function returns
`affected > 0` for the INSERT's rowcount. -/
def registrar_movimiento_dental (db : InventoryDB) (producto_id : Nat)
    (tipo : String) (cantidad : Int) (precio_unitario : Money)
    (documento : Option String) (mes : Nat) (anio : Int)
    (fault_insert fault_update : Bool) : InventoryDB × Bool :=
  match insert_movimiento db producto_id tipo cantidad precio_unitario
      documento mes anio fault_insert with
  | UpdateResult.err db1 => (db1, false)
  | UpdateResult.ok db1 affected =>
    match update_stock db1 producto_id
        (if esEntrada tipo then cantidad else -cantidad) fault_update with
    | UpdateResult.err db2 => (db2, false)
    | UpdateResult.ok db2 _ => (db2, decide (affected > 0))

/-- A database with the single active product `pAnestesia` (id 1, stock 8)
and an empty ledger, used as concrete input for the write-path claims. -/
def dbDental : InventoryDB :=
  { productos := [pAnestesia], movimientos := [], existencias := [],
    lotes := [] }

/-- C2 is refuted by the code: `execute_update` commits after each statement,
so when the stock UPDATE raises a StorageFailure after the movement INSERT
has committed, the call returns failure yet the ledger durably holds the new
movement row while the product's stock is unchanged — a partial write
survives the failure, contradicting the claimed atomicity. -/
theorem registrar_movimiento_dental_partial_write :
    (registrar_movimiento_dental dbDental 1 "salida" 5 10 (some "B-001")
      3 2024 false true).2 = false
    ∧ (registrar_movimiento_dental dbDental 1 "salida" 5 10 (some "B-001")
        3 2024 false true).1.movimientos
      = dbDental.movimientos ++
        [{ producto_id := 1, tipo := "salida", cantidad := 5,
           precio_unitario := 10, documento := some "B-001", mes := 3,
           anio := 2024, empresa_id := 1 }]
    ∧ (registrar_movimiento_dental dbDental 1 "salida" 5 10 (some "B-001")
        3 2024 false true).1.productos = dbDental.productos := by
  refine ⟨rfl, by decide, by decide⟩

/-- C8 is refuted by the code for non-positive quantities: no validation of
`cantidad` exists anywhere on the path (the schema only constrains `tipo`),
so a movement of kind `salida` with quantity −5 is inserted into the ledger,
the stock is updated (8 − (−5) = 13) and the call reports success — both
writes occur instead of a pre-write validation rejection. -/
theorem registrar_movimiento_dental_cantidad_negativa :
    (registrar_movimiento_dental dbDental 1 "salida" (-5) 10 none
      3 2024 false false).2 = true
    ∧ (registrar_movimiento_dental dbDental 1 "salida" (-5) 10 none
        3 2024 false false).1.movimientos
      = dbDental.movimientos ++
        [{ producto_id := 1, tipo := "salida", cantidad := -5,
           precio_unitario := 10, documento := none, mes := 3,
           anio := 2024, empresa_id := 1 }]
    ∧ (registrar_movimiento_dental dbDental 1 "salida" (-5) 10 none
        3 2024 false false).1.productos
      = [{ pAnestesia with stock := 13 }] := by
  refine ⟨rfl, by decide, by decide⟩

/-- Counterexample to C10 as stated: for the unrecognized kind `donacion`
the stock is NOT decremented — the movement INSERT fails the schema CHECK on
`tipo` before the stock UPDATE is reached, the exception is caught, and the
call returns `false` with the database unchanged; in particular the product
list differs from the claimed decremented one. -/
theorem registrar_movimiento_dental_tipo_desconocido :
    registrar_movimiento_dental dbDental 1 "donacion" 5 10 none
      3 2024 false false = (dbDental, false)
    ∧ (registrar_movimiento_dental dbDental 1 "donacion" 5 10 none
        3 2024 false false).1.productos
      ≠ dbDental.productos.map (fun p =>
          if p.id = 1 then { p with stock := p.stock - 5 } else p) := by
  refine ⟨by decide, by decide⟩

/-- C10 amended: the subtracting branch of the stock update is the catch-all
for every kind other than `entrada`/`ajuste_positivo`, but only the
recognized outflow kinds `salida` and `ajuste_negativo` survive the INSERT's
schema CHECK and reach it; for those, with both statements succeeding and
the product present, the product's stored stock is decremented by the given
quantity and the call returns success.  A kind outside the four recognized
ones instead fails the INSERT and leaves the stock untouched (see the
counterexample). -/
theorem registrar_movimiento_dental_outflow_descuenta (db : InventoryDB)
    (producto_id : Nat) (tipo : String) (cantidad : Int)
    (precio_unitario : Money) (documento : Option String) (mes : Nat)
    (anio : Int) (ht : tipo = "salida" ∨ tipo = "ajuste_negativo")
    (hfk : db.productos.any (fun p => decide (p.id = producto_id)) = true) :
    (registrar_movimiento_dental db producto_id tipo cantidad precio_unitario
      documento mes anio false false).1.productos
      = db.productos.map (fun p =>
          if p.id = producto_id then { p with stock := p.stock - cantidad }
          else p)
    ∧ (registrar_movimiento_dental db producto_id tipo cantidad
        precio_unitario documento mes anio false false).2 = true := by
  rcases ht with h | h <;> subst h <;>
    constructor <;>
      simp [registrar_movimiento_dental, insert_movimiento, update_stock,
        tipoValido, esEntrada, hfk, sub_eq_add_neg]

/-- Witness for the amended C10 at a concrete input: a `salida` of 5 units
of product 1 in `dbDental` succeeds (and decrements the stored stock). -/
theorem registrar_movimiento_dental_outflow_descuenta_witness :
    (("salida" = "salida" ∨ "salida" = "ajuste_negativo")
      ∧ dbDental.productos.any (fun p => decide (p.id = 1)) = true)
    ∧ (registrar_movimiento_dental dbDental 1 "salida" 5 10 none
        3 2024 false false).2 = true :=
  ⟨⟨Or.inl rfl, by decide⟩,
    (registrar_movimiento_dental_outflow_descuenta dbDental 1 "salida" 5 10
      none 3 2024 (Or.inl rfl) (by decide)).2⟩

/-- Witness for C9 at a concrete input: the empty database has no product
with id 7, and `calcular_stock_actual` returns `none` for it. -/
theorem calcular_stock_actual_spec_witness :
    calcular_stock_actual dbEmpty 7 = none :=
  (calcular_stock_actual_spec dbEmpty 7).1.mpr (by simp [dbEmpty])
